import Mathlib

/-!
Verification of the WebSocket client core in `source/server/ws/ws_client.cpp`
(`CppServer::WS::WSClient`).

The development shallowly embeds the client:
* bytes are `Nat` values below 256, byte strings are `List Nat`;
* the SHA-1 digest and Base64 decoding used by the `Sec-WebSocket-Accept`
  validation are embedded from their standard algorithms (the C++ code calls
  OpenSSL `SHA1` and `CppCommon::Encoding::Base64Decode`, both external
  libraries);
* the handshake state machine (`onReceivedResponseHeader`, `onDisconnected`,
  `onReceived`) is embedded as pure state-transition functions that also
  return the list of callbacks they invoke, in order;
* `PrepareWebSocketFrame` is embedded as a pure function from opcode, payload
  and mask key to the list of bytes of the produced frame.
-/

set_option maxRecDepth 100000

/-! ## Bytes and 32-bit arithmetic -/

/-- `2 ^ 32`, the modulus of 32-bit unsigned arithmetic. -/
def M32 : Nat := 4294967296

/-- Rotate the 32-bit value `x` left by `n` bits. -/
def rotl32 (n x : Nat) : Nat :=
  ((x <<< n) % M32) ||| ((x % M32) >>> (32 - n))

/-- The bytes of an ASCII string (`Char.toNat` of each character; all strings
handled by the client core are ASCII, where this agrees with the UTF-8 bytes
the C++ code operates on). -/
def strBytes (s : String) : List Nat :=
  s.toList.map Char.toNat

/-! ## SHA-1 (the OpenSSL `SHA1` call of `onReceivedResponseHeader`),
embedded from FIPS 180-1 / RFC 3174. -/

/-- SHA-1 round function `f_t`. -/
def sha1f (t b c d : Nat) : Nat :=
  if t < 20 then (b &&& c) ||| ((b ^^^ 4294967295) &&& d)
  else if t < 40 then b ^^^ c ^^^ d
  else if t < 60 then (b &&& c) ||| (b &&& d) ||| (c &&& d)
  else b ^^^ c ^^^ d

/-- SHA-1 round constant `K_t`. -/
def sha1k (t : Nat) : Nat :=
  if t < 20 then 1518500249
  else if t < 40 then 1859775393
  else if t < 60 then 2400959708
  else 3395469782

/-- SHA-1 message padding: append `0x80`, zero bytes up to 56 mod 64, then the
bit length as 8 big-endian bytes. -/
def sha1pad (msg : List Nat) : List Nat :=
  let padZeros := (119 - msg.length % 64) % 64
  msg ++ [128] ++ List.replicate padZeros 0 ++
    (List.range 8).map (fun i => ((8 * msg.length) >>> (8 * (7 - i))) % 256)

/-- Split a byte list into 64-byte blocks; the fuel argument (any upper bound
on the number of blocks, e.g. the length of the list) makes the recursion
structural. -/
def chunks64Fuel : Nat → List Nat → List (List Nat)
  | 0, _ => []
  | _ + 1, [] => []
  | fuel + 1, x :: xs => ((x :: xs).take 64) :: chunks64Fuel fuel ((x :: xs).drop 64)

/-- Split a byte list into 64-byte blocks. -/
def chunks64 (l : List Nat) : List (List Nat) :=
  chunks64Fuel l.length l

/-- The 16 big-endian 32-bit words of one 64-byte block. -/
def blockWords (block : List Nat) : Array Nat :=
  ((List.range 16).map (fun i =>
    block.getD (4 * i) 0 * 16777216 + block.getD (4 * i + 1) 0 * 65536 +
      block.getD (4 * i + 2) 0 * 256 + block.getD (4 * i + 3) 0)).toArray

/-- Expand the 16 message words to the 80 words of the SHA-1 message schedule. -/
def sha1Schedule (w : Array Nat) : Array Nat :=
  (List.range 64).foldl (fun acc j =>
    let i := j + 16
    acc.push (rotl32 1 ((acc.getD (i - 3) 0) ^^^ (acc.getD (i - 8) 0) ^^^
      (acc.getD (i - 14) 0) ^^^ (acc.getD (i - 16) 0)))) w

/-- Process one 64-byte block, updating the five 32-bit chaining values. -/
def sha1Block (h : Nat × Nat × Nat × Nat × Nat) (block : List Nat) :
    Nat × Nat × Nat × Nat × Nat :=
  let w := sha1Schedule (blockWords block)
  let r := (List.range 80).foldl (fun st t =>
    let (a, b, c, d, e) := st
    let tmp := (rotl32 5 a + sha1f t b c d + e + sha1k t + w.getD t 0) % M32
    (tmp, a, rotl32 30 b, c, d)) (h.1, h.2.1, h.2.2.1, h.2.2.2.1, h.2.2.2.2)
  ((h.1 + r.1) % M32, (h.2.1 + r.2.1) % M32, (h.2.2.1 + r.2.2.1) % M32,
    (h.2.2.2.1 + r.2.2.2.1) % M32, (h.2.2.2.2 + r.2.2.2.2) % M32)

/-- The 20-byte SHA-1 digest of a byte list. -/
def sha1 (msg : List Nat) : List Nat :=
  let h := (chunks64 (sha1pad msg)).foldl sha1Block
    (1732584193, 4023233417, 2562383102, 271733878, 3285377520)
  ([h.1, h.2.1, h.2.2.1, h.2.2.2.1, h.2.2.2.2].map (fun x =>
    [(x >>> 24) % 256, (x >>> 16) % 256, (x >>> 8) % 256, x % 256])).flatten

/-! ## Base64 decoding (the `CppCommon::Encoding::Base64Decode` call),
embedded from RFC 4648. -/

/-- The 6-bit value of one Base64 alphabet character (0 for padding and for
characters outside the alphabet). -/
def b64Val (c : Char) : Nat :=
  if 65 ≤ c.toNat ∧ c.toNat ≤ 90 then c.toNat - 65
  else if 97 ≤ c.toNat ∧ c.toNat ≤ 122 then c.toNat - 97 + 26
  else if 48 ≤ c.toNat ∧ c.toNat ≤ 57 then c.toNat - 48 + 52
  else if c.toNat = 43 then 62
  else if c.toNat = 47 then 63
  else 0

/-- Decode a Base64 character sequence, 4 characters (3 bytes) at a time;
`=` (code 61) padding at the end of a quantum drops the trailing bytes. -/
def base64DecodeChars : List Char → List Nat
  | c1 :: c2 :: c3 :: c4 :: rest =>
    let n := b64Val c1 * 262144 + b64Val c2 * 4096 + b64Val c3 * 64 + b64Val c4
    let bytes := [(n >>> 16) % 256, (n >>> 8) % 256, n % 256]
    (if c4.toNat = 61 then (if c3.toNat = 61 then bytes.take 1 else bytes.take 2)
     else bytes) ++ base64DecodeChars rest
  | _ => []

/-- Base64-decode a string to its byte list. -/
def base64Decode (s : String) : List Nat :=
  base64DecodeChars s.toList

/-! ## The WebSocket accept digest (lines 123–126 of `ws_client.cpp`) -/

/-- The WebSocket GUID appended to the encoded key (line 124). -/
def wsGUID : String := "258EAFA5-E914-47DA-95CA-C5AB0DC85B11"

/-- The digest computed at lines 124–126: the SHA-1 hash of the Base64-encoded
connection id (`encodedId = Base64Encode(id().string())`, already encoded)
concatenated with the WebSocket GUID. -/
def wsAcceptDigest (encodedId : String) : List Nat :=
  sha1 (strBytes (encodedId ++ wsGUID))

/-! ## The accept comparison (lines 128–137)

The C++ code compares the Base64-decoded header value with the digest using
`std::strncmp(wskey.data(), wshash, std::max(wskey.size(), sizeof(wshash)))`.
`strncmp` compares at most `n` characters but stops at the first difference or
at a NUL character that both strings share.  The first buffer is
`std::string::data()`, whose byte at index `size()` is the guaranteed NUL
terminator; the second buffer is the bare 20-byte digest array, whose byte
after the end is not specified — it is modelled here as 0 (reading it in the
C++ code would be out of bounds; the comparison reaches it only when the
decoded value is longer than 20 bytes and its first 20 bytes equal the
NUL-free digest). -/

/-- `strncmp(a, b, n) == 0` where `a` and `b` list the bytes of each buffer up
to (not including) its NUL terminator; reading at or past the end of a list
yields 0, the terminator. -/
def strncmpEq : List Nat → List Nat → Nat → Bool
  | _, _, 0 => true
  | a, b, n + 1 =>
    (a.headD 0 == b.headD 0) && ((a.headD 0 == 0) || strncmpEq a.tail b.tail n)

/-- The `Sec-WebSocket-Accept` validation at lines 123–137: Base64-decode the
header value and `strncmp`-compare it with the 20-byte digest over
`max(decodedLength, 20)` bytes. -/
def acceptCheck (encodedId value : String) : Bool :=
  let decoded := base64Decode value
  strncmpEq decoded (wsAcceptDigest encodedId) (max decoded.length 20)

/-- Claim C9: the accept hash is SHA-1 of the Base64-encoded connection id
concatenated with `"258EAFA5-E914-47DA-95CA-C5AB0DC85B11"`, and on the
RFC 6455 test vector — encoded client key `"dGhlIHNhbXBsZSBub25jZQ=="` — the
20-byte digest equals the Base64 decoding of `"s3pPLMBiTxaQ9kYGzzhZRbK+xOo="`. -/
theorem wsAcceptDigest_rfc6455_vector :
    wsAcceptDigest "dGhlIHNhbXBsZSBub25jZQ==" =
      base64Decode "s3pPLMBiTxaQ9kYGzzhZRbK+xOo=" ∧
    (base64Decode "s3pPLMBiTxaQ9kYGzzhZRbK+xOo=").length = 20 := by
  decide

/-! ## The frame encoder `PrepareWebSocketFrame` (lines 165–205) -/

/-- The 4-byte mask `_mask` (uint8_t[4]). -/
structure MaskKey where
  b0 : Nat
  b1 : Nat
  b2 : Nat
  b3 : Nat
deriving DecidableEq

/-- `_mask[i % 4]`. -/
def MaskKey.get (m : MaskKey) (i : Nat) : Nat :=
  match i % 4 with
  | 0 => m.b0
  | 1 => m.b1
  | 2 => m.b2
  | _ => m.b3

/-- All four mask bytes are below 256 (the uint8_t invariant). -/
def MaskKey.Bytes (m : MaskKey) : Prop :=
  m.b0 < 256 ∧ m.b1 < 256 ∧ m.b2 < 256 ∧ m.b3 < 256

/-- The length field pushed at lines 174–189: one byte `(size & 0xFF) | 0x80`
for `size ≤ 125`; `126 | 0x80` and two big-endian bytes for `size ≤ 65535`;
otherwise `127 | 0x80`, four zero bytes, and the four big-endian bytes
`(size >> 8*i) & 0xFF` for `i = 3, 2, 1, 0`. -/
def sizeField (size : Nat) : List Nat :=
  if size ≤ 125 then
    [(size &&& 255) ||| 128]
  else if size ≤ 65535 then
    [126 ||| 128, (size >>> 8) &&& 255, size &&& 255]
  else
    [127 ||| 128] ++ List.replicate 4 0 ++
      [3, 2, 1, 0].map (fun i => (size >>> (8 * i)) &&& 255)

/-- The masked payload section written at lines 201–204:
`output[i] = payload[i] XOR _mask[i % 4]`, stored into uint8_t cells. -/
def maskPayload (payload : List Nat) (m : MaskKey) : List Nat :=
  (List.range payload.length).map (fun i => (payload.getD i 0 ^^^ m.get i) % 256)

/-- `WSClient::PrepareWebSocketFrame` (lines 165–205): the bytes of the
`_ws_send_buffer` after the call — opcode, length field, the four mask bytes,
then the masked payload.  (`opcode` is a uint8_t parameter, `buffer`/`size`
are the payload bytes; the unused `status` parameter is omitted.) -/
def PrepareWebSocketFrame (opcode : Nat) (payload : List Nat) (m : MaskKey) :
    List Nat :=
  [opcode % 256] ++ sizeField payload.length ++ [m.b0, m.b1, m.b2, m.b3] ++
    maskPayload payload m

/-! ## The handshake state machine -/

/-- The `HTTP::HTTPResponse` values the WebSocket core reads: the status code
and the ordered header list (`response.status()`, `response.headers()`,
`response.header(i)`). -/
structure HTTPResponse where
  status : Nat
  headers : List (String × String)
deriving DecidableEq

/-- Modelled from the spec: the stored `HTTP::HTTPRequest` value (its class
lives in this repository's HTTP module, outside this core); the core only
fills it via the application hook and clears it, so it is modelled as its
header list and body, with `HTTPRequest.Clear` producing the empty value. -/
structure HTTPRequest where
  headers : List (String × String)
  body : String
deriving DecidableEq

/-- Modelled from the spec: the empty request produced by `_request.Clear()`. -/
def HTTPRequest.empty : HTTPRequest := ⟨[], ""⟩

/-- Modelled from the spec: the empty response produced by `_response.Clear()`. -/
def HTTPResponse.empty : HTTPResponse := ⟨0, []⟩

/-- The mutable state of `WSClient` that the embedded handlers touch:
`_handshaked`, `_mask`, and the stored `_request`/`_response`. -/
structure WSClientState where
  handshaked : Bool
  mask : MaskKey
  request : HTTPRequest
  response : HTTPResponse
deriving DecidableEq

/-- The externally visible calls a handler makes, in order: the protocol
hooks `onWSConnected`/`onWSDisconnected`/`onError` (recorded with its message)
plus the transport requests `DisconnectAsync()` and, from `onReceived`, the
delegation to `HTTPClient::onReceived`. -/
inductive WSEvent where
  | wsConnected (resp : HTTPResponse)
  | wsDisconnected
  | wsError (msg : String)
  | disconnectAsync
  | forwardHTTP (bytes : List Nat)
deriving DecidableEq

/-- `WSClient::onDisconnected` (lines 58–70): if handshaked, clear the flag
and invoke `onWSDisconnected`; in every case clear the stored request and
response. -/
def onDisconnected (s : WSClientState) : WSClientState × List WSEvent :=
  if s.handshaked then
    ({ s with handshaked := false,
              request := HTTPRequest.empty, response := HTTPResponse.empty },
      [WSEvent.wsDisconnected])
  else
    ({ s with request := HTTPRequest.empty, response := HTTPResponse.empty }, [])

/-- `WSClient::onReceived` (lines 72–77): while not handshaked, forward the
bytes to `HTTPClient::onReceived` (external); once handshaked, do nothing. -/
def onReceived (s : WSClientState) (bytes : List Nat) :
    WSClientState × List WSEvent :=
  if !s.handshaked then (s, [WSEvent.forwardHTTP bytes]) else (s, [])

/-- The loop state of lines 88–91: the four booleans and the `onError` calls
made so far. -/
structure ScanState where
  error : Bool
  accept : Bool
  connection : Bool
  upgrade : Bool
  events : List WSEvent
deriving DecidableEq

/-- The header loop of lines 93–141: walk the headers in order; a `Connection`
header must have value `"Upgrade"`, an `Upgrade` header value `"websocket"`,
and a `Sec-WebSocket-Accept` header must pass `acceptCheck`; a failing header
reports an error and breaks, a passing one sets its boolean. -/
def scanHeaders (encodedId : String) :
    List (String × String) → ScanState → ScanState
  | [], st => st
  | (key, value) :: rest, st =>
    if key = "Connection" then
      if value ≠ "Upgrade" then
        { st with error := true,
                  events := st.events ++ [WSEvent.wsError
                    "Invalid WebSocket handshaked response: 'Connection' header value must be 'Upgrade'"] }
      else
        scanHeaders encodedId rest { st with connection := true }
    else if key = "Upgrade" then
      if value ≠ "websocket" then
        { st with error := true,
                  events := st.events ++ [WSEvent.wsError
                    "Invalid WebSocket handshaked response: 'Upgrade' header value must be 'websocket'"] }
      else
        scanHeaders encodedId rest { st with upgrade := true }
    else if key = "Sec-WebSocket-Accept" then
      if !acceptCheck encodedId value then
        { st with error := true,
                  events := st.events ++ [WSEvent.wsError
                    "Invalid WebSocket handshaked response: 'Sec-WebSocket-Accept' value validation failed"] }
      else
        scanHeaders encodedId rest { st with accept := true }
    else
      scanHeaders encodedId rest st

/-- `WSClient::onReceivedResponseHeader` (lines 79–163).  `encodedId` is the
Base64-encoded connection id and `freshMask` the value the `rand()` call at
line 154 writes into `_mask` on success. -/
def onReceivedResponseHeader (s : WSClientState) (encodedId : String)
    (freshMask : MaskKey) (resp : HTTPResponse) : WSClientState × List WSEvent :=
  if s.handshaked then
    (s, [])
  else if resp.status = 101 then
    let st := scanHeaders encodedId resp.headers ⟨false, false, false, false, []⟩
    if !st.accept || !st.connection || !st.upgrade then
      (s, st.events ++
        (if st.error then [] else [WSEvent.wsError "Invalid WebSocket response"]) ++
        [WSEvent.disconnectAsync])
    else
      ({ s with handshaked := true, mask := freshMask },
        st.events ++ [WSEvent.wsConnected resp])
  else
    (s, [WSEvent.wsError
          ("Invalid WebSocket response status: " ++ toString resp.status),
        WSEvent.disconnectAsync])

/-! ## Concrete sample values used by the witnesses -/

/-- A client state that has not handshaked. -/
def sIdle : WSClientState := ⟨false, ⟨0, 0, 0, 0⟩, HTTPRequest.empty, HTTPResponse.empty⟩

/-- A client state that has handshaked. -/
def sLive : WSClientState := ⟨true, ⟨1, 2, 3, 4⟩, ⟨[("Connection", "Upgrade")], ""⟩, ⟨101, []⟩⟩

/-- A sample mask key. -/
def mkA : MaskKey := ⟨1, 2, 3, 4⟩

/-- The RFC 6455 sample Base64-encoded client key. -/
def eidVec : String := "dGhlIHNhbXBsZSBub25jZQ=="

/-- The RFC 6455 sample accept value (matches `eidVec`). -/
def acceptVec : String := "s3pPLMBiTxaQ9kYGzzhZRbK+xOo="

/-- A response that passes every handshake check. -/
def respGood : HTTPResponse :=
  ⟨101, [("Connection", "Upgrade"), ("Upgrade", "websocket"),
         ("Sec-WebSocket-Accept", acceptVec)]⟩

/-! ## Claims about the handlers -/

/-- Claim C7: once handshaked, `onReceivedResponseHeader` is a no-op — it
returns the state unchanged (flag, mask key, stored request/response) and
invokes no callback, so at most one successful transition to Handshaked can
occur, and among the embedded handlers only `onDisconnected` leaves the
Handshaked state (`onReceived` also preserves it). -/
theorem handshaked_responseHeader_noop (s : WSClientState) (encodedId : String)
    (freshMask : MaskKey) (resp : HTTPResponse) (bytes : List Nat)
    (h : s.handshaked = true) :
    onReceivedResponseHeader s encodedId freshMask resp = (s, []) ∧
    ((onReceived s bytes).1).handshaked = true := by
  simp [onReceivedResponseHeader, onReceived, h]

/-- Witness for C7 at a concrete handshaked state. -/
theorem handshaked_responseHeader_noop_witness :
    onReceivedResponseHeader sLive eidVec mkA respGood = (sLive, []) ∧
    ((onReceived sLive [1, 2, 3]).1).handshaked = true :=
  handshaked_responseHeader_noop sLive eidVec mkA respGood [1, 2, 3] rfl

/-- Claim C10: once handshaked, `onReceived` does nothing: the state is
unchanged and no call is made — in particular the bytes are not forwarded to
`HTTPClient::onReceived` (HTTP response parsing) and no frame decoder is
invoked. -/
theorem handshaked_onReceived_drops (s : WSClientState) (bytes : List Nat)
    (h : s.handshaked = true) :
    onReceived s bytes = (s, []) := by
  simp [onReceived, h]

/-- Witness for C10 at a concrete handshaked state. -/
theorem handshaked_onReceived_drops_witness :
    onReceived sLive [72, 84, 84, 80] = (sLive, []) :=
  handshaked_onReceived_drops sLive [72, 84, 84, 80] rfl

/-- Claim C5: a response with status other than 101, delivered while not
handshaked, produces exactly an `onError` call with the invalid-status
message followed by `DisconnectAsync()`, leaves the state unchanged (so no
retry), and never invokes `onWSConnected`. -/
theorem invalid_status_rejected (s : WSClientState) (encodedId : String)
    (freshMask : MaskKey) (resp : HTTPResponse)
    (h : s.handshaked = false) (hs : resp.status ≠ 101) :
    onReceivedResponseHeader s encodedId freshMask resp =
      (s, [WSEvent.wsError
            ("Invalid WebSocket response status: " ++ toString resp.status),
          WSEvent.disconnectAsync]) ∧
    ∀ r, WSEvent.wsConnected r ∉ (onReceivedResponseHeader s encodedId freshMask resp).2 := by
  constructor
  · simp [onReceivedResponseHeader, h, hs]
  · intro r
    simp [onReceivedResponseHeader, h, hs]

/-- Witness for C5: a status-200 response. -/
theorem invalid_status_rejected_witness :
    onReceivedResponseHeader sIdle eidVec mkA ⟨200, [("Connection", "Upgrade")]⟩ =
      (sIdle, [WSEvent.wsError "Invalid WebSocket response status: 200",
               WSEvent.disconnectAsync]) ∧
    ∀ r, WSEvent.wsConnected r ∉
      (onReceivedResponseHeader sIdle eidVec mkA ⟨200, [("Connection", "Upgrade")]⟩).2 :=
  invalid_status_rejected sIdle eidVec mkA ⟨200, [("Connection", "Upgrade")]⟩ rfl (by decide)

/-- Claim C8: every `onDisconnected` call clears the stored request and
response, whatever the prior state. -/
theorem onDisconnected_clears (s : WSClientState) :
    ((onDisconnected s).1).request = HTTPRequest.empty ∧
    ((onDisconnected s).1).response = HTTPResponse.empty := by
  unfold onDisconnected
  split <;> simp

/-- `n` successive `onDisconnected` deliveries starting from `s`, with all the
calls they make, in order. -/
def iterDisconnects : Nat → WSClientState → WSClientState × List WSEvent
  | 0, s => (s, [])
  | n + 1, s =>
    let r1 := onDisconnected s
    let r2 := iterDisconnects n r1.1
    (r2.1, r1.2 ++ r2.2)

theorem onDisconnected_handshaked_false (s : WSClientState) :
    ((onDisconnected s).1).handshaked = false := by
  unfold onDisconnected
  split <;> simp_all

theorem iterDisconnects_silent (n : Nat) (s : WSClientState)
    (h : s.handshaked = false) : (iterDisconnects n s).2 = [] := by
  induction n generalizing s with
  | zero => rfl
  | succ n ih =>
    have h2 : (onDisconnected s).2 = [] := by simp [onDisconnected, h]
    simp [iterDisconnects, h2, ih _ (onDisconnected_handshaked_false s)]

/-- Claim C6: over any number of consecutive transport disconnect
notifications, `onWSDisconnected` is invoked at most once; if the state was
handshaked and at least one notification arrives, it is invoked exactly once
(by the first call, which clears the flag — later calls stay silent). -/
theorem wsDisconnected_at_most_once (n : Nat) (s : WSClientState) :
    ((iterDisconnects n s).2).count WSEvent.wsDisconnected ≤ 1 ∧
    (s.handshaked = true → 1 ≤ n →
      ((iterDisconnects n s).2).count WSEvent.wsDisconnected = 1) := by
  cases n with
  | zero =>
    exact ⟨by simp [iterDisconnects], fun _ h => absurd h (by omega)⟩
  | succ n =>
    have hrest : (iterDisconnects n (onDisconnected s).1).2 = [] :=
      iterDisconnects_silent n _ (onDisconnected_handshaked_false s)
    cases hh : s.handshaked with
    | false =>
      have h2 : (onDisconnected s).2 = [] := by simp [onDisconnected, hh]
      refine ⟨?_, fun hc _ => by simp [hh] at hc⟩
      simp [iterDisconnects, hrest, h2]
    | true =>
      have h2 : (onDisconnected s).2 = [WSEvent.wsDisconnected] := by
        simp [onDisconnected, hh]
      constructor
      · simp [iterDisconnects, hrest, h2]
      · intro _ _
        simp [iterDisconnects, hrest, h2]

/-- Witness for C6: two disconnect notifications after a successful handshake
fire `onWSDisconnected` exactly once. -/
theorem wsDisconnected_at_most_once_witness :
    ((iterDisconnects 2 sLive).2).count WSEvent.wsDisconnected = 1 :=
  (wsDisconnected_at_most_once 2 sLive).2 rfl (by omega)

/-! ## Claims about the frame encoder -/

theorem and255_eq_mod (x : Nat) : x &&& 255 = x % 256 := by
  have h1 : (255 : Nat) = 2 ^ 8 - 1 := by norm_num
  have h2 : (256 : Nat) = 2 ^ 8 := by norm_num
  rw [h1, h2, Nat.and_pow_two_sub_one_eq_mod]

theorem MaskKey.get_lt (m : MaskKey) (hm : m.Bytes) (i : Nat) : m.get i < 256 := by
  obtain ⟨h0, h1, h2, h3⟩ := hm
  unfold MaskKey.get
  split <;> assumption

theorem frame_drop_one (opcode : Nat) (payload : List Nat) (m : MaskKey) :
    (PrepareWebSocketFrame opcode payload m).drop 1 =
      sizeField payload.length ++
        ([m.b0, m.b1, m.b2, m.b3] ++ maskPayload payload m) := by
  simp [PrepareWebSocketFrame]

theorem frame_drop_header (opcode : Nat) (payload : List Nat) (m : MaskKey) :
    (PrepareWebSocketFrame opcode payload m).drop
        (1 + (sizeField payload.length).length + 4) = maskPayload payload m := by
  unfold PrepareWebSocketFrame
  rw [show [opcode % 256] ++ sizeField payload.length ++ [m.b0, m.b1, m.b2, m.b3] ++
        maskPayload payload m =
      ([opcode % 256] ++ sizeField payload.length ++ [m.b0, m.b1, m.b2, m.b3]) ++
        maskPayload payload m from by simp]
  apply List.drop_left'
  simp
  omega

theorem maskPayload_length (payload : List Nat) (m : MaskKey) :
    (maskPayload payload m).length = payload.length := by
  simp [maskPayload]

/-- Claim C3: XOR-unmasking the masked-payload section of the produced frame
(the bytes after the opcode, length field and 4 mask bytes) with
`maskKey[i mod 4]` recovers the payload exactly, for every opcode, mask key of
bytes and payload of bytes, the empty payload included. -/
theorem mask_involution (opcode : Nat) (payload : List Nat) (m : MaskKey)
    (hp : ∀ b ∈ payload, b < 256) (hm : m.Bytes) :
    (List.range ((PrepareWebSocketFrame opcode payload m).drop
        (1 + (sizeField payload.length).length + 4)).length).map
      (fun i => ((PrepareWebSocketFrame opcode payload m).drop
        (1 + (sizeField payload.length).length + 4)).getD i 0 ^^^ m.get i) =
      payload := by
  rw [frame_drop_header, maskPayload_length]
  apply List.ext_getElem (by simp [maskPayload])
  intro i h1 h2
  have hi : i < payload.length := by simpa using h1
  have h3 : i < (maskPayload payload m).length := by
    rw [maskPayload_length]; exact hi
  simp only [List.getElem_map, List.getElem_range]
  rw [List.getD_eq_getElem _ _ h3]
  simp only [maskPayload, List.getElem_map, List.getElem_range]
  rw [List.getD_eq_getElem _ _ hi]
  have hpi : payload[i] < 256 := hp _ (List.getElem_mem hi)
  have hmi : m.get i < 256 := MaskKey.get_lt m hm i
  have hxor : payload[i] ^^^ m.get i < 256 := by
    have h256 : (256 : Nat) = 2 ^ 8 := by norm_num
    rw [h256] at hpi hmi ⊢
    exact Nat.xor_lt_two_pow hpi hmi
  rw [Nat.mod_eq_of_lt hxor, Nat.xor_cancel_right]

/-- Witness for C3 at a concrete frame. -/
theorem mask_involution_witness :
    (List.range ((PrepareWebSocketFrame 129 [72, 101, 108] mkA).drop
        (1 + (sizeField (List.length [72, 101, 108])).length + 4)).length).map
      (fun i => ((PrepareWebSocketFrame 129 [72, 101, 108] mkA).drop
        (1 + (sizeField (List.length [72, 101, 108])).length + 4)).getD i 0 ^^^
        mkA.get i) = [72, 101, 108] :=
  mask_involution 129 [72, 101, 108] mkA (by decide)
    (by unfold MaskKey.Bytes; decide)

/-- Claim C2, amended: the length field after the opcode byte, with the mask
bit `0x80` set on its first byte, is: for `L ≤ 125` the single byte
`L ||| 0x80`; for `126 ≤ L ≤ 65535` the byte `126 ||| 0x80` and two big-endian
bytes recomposing to `L`; for `L > 65535` the byte `127 ||| 0x80`, four zero
bytes, and four big-endian bytes recomposing to `L mod 2^32` (hence to `L`
itself exactly when `L < 2^32`). -/
theorem frame_length_field (opcode : Nat) (payload : List Nat) (m : MaskKey) :
    (payload.length ≤ 125 →
      ((PrepareWebSocketFrame opcode payload m).drop 1).take 1 =
        [payload.length ||| 128]) ∧
    (126 ≤ payload.length → payload.length ≤ 65535 →
      ((PrepareWebSocketFrame opcode payload m).drop 1).take 3 =
        [126 ||| 128, (payload.length >>> 8) &&& 255, payload.length &&& 255] ∧
      ((payload.length >>> 8) &&& 255) * 256 + (payload.length &&& 255) =
        payload.length) ∧
    (65535 < payload.length →
      ((PrepareWebSocketFrame opcode payload m).drop 1).take 9 =
        [127 ||| 128, 0, 0, 0, 0, (payload.length >>> 24) &&& 255,
          (payload.length >>> 16) &&& 255, (payload.length >>> 8) &&& 255,
          payload.length &&& 255] ∧
      ((payload.length >>> 24) &&& 255) * 16777216 +
        ((payload.length >>> 16) &&& 255) * 65536 +
        ((payload.length >>> 8) &&& 255) * 256 + (payload.length &&& 255) =
        payload.length % 4294967296) := by
  rw [frame_drop_one]
  refine ⟨?_, ?_, ?_⟩
  · intro hL
    rw [sizeField, if_pos hL]
    simp only [List.singleton_append, List.cons_append, List.take_succ_cons,
      List.take_zero]
    rw [and255_eq_mod, Nat.mod_eq_of_lt (by omega)]
  · intro hL1 hL2
    rw [sizeField, if_neg (by omega), if_pos hL2]
    constructor
    · simp
    · rw [and255_eq_mod, and255_eq_mod, Nat.shiftRight_eq_div_pow]
      have h8 : (2 : Nat) ^ 8 = 256 := by norm_num
      rw [h8]
      omega
  · intro hL
    rw [sizeField, if_neg (by omega), if_neg (by omega)]
    constructor
    · simp
    · simp only [and255_eq_mod, Nat.shiftRight_eq_div_pow]
      have h8 : (2 : Nat) ^ 8 = 256 := by norm_num
      have h16 : (2 : Nat) ^ 16 = 65536 := by norm_num
      have h24 : (2 : Nat) ^ 24 = 16777216 := by norm_num
      rw [h8, h16, h24]
      omega

/-- Witness for C2: a 300-byte payload takes the 2-byte big-endian form. -/
theorem frame_length_field_witness :
    126 ≤ (List.replicate 300 (7 : Nat)).length ∧
    ((PrepareWebSocketFrame 130 (List.replicate 300 7) mkA).drop 1).take 3 =
      [126 ||| 128, ((List.replicate 300 (7 : Nat)).length >>> 8) &&& 255,
        (List.replicate 300 (7 : Nat)).length &&& 255] :=
  ⟨by simp,
    ((frame_length_field 130 (List.replicate 300 7) mkA).2.1 (by simp)
      (by simp)).1⟩

/-- A payload of exactly `2^32` bytes. -/
def bigPayload : List Nat := List.replicate 4294967296 0

/-- Counterexample to C2 as stated: for the payload length `L = 2^32` the
frame's eight length bytes are all zero — the low four bytes recompose to `0`,
not to `L`, so they do not carry `L`. -/
theorem frame_length_field_cex :
    bigPayload.length = 4294967296 ∧ 65535 < bigPayload.length ∧
    ((PrepareWebSocketFrame 129 bigPayload mkA).drop 1).take 9 =
      [255, 0, 0, 0, 0, 0, 0, 0, 0] ∧
    0 * 16777216 + 0 * 65536 + 0 * 256 + 0 ≠ bigPayload.length := by
  have hlen : bigPayload.length = 4294967296 := by
    unfold bigPayload
    exact List.length_replicate _ _
  have hsf : sizeField 4294967296 = [255, 0, 0, 0, 0, 0, 0, 0, 0] := by decide
  refine ⟨hlen, by omega, ?_, by omega⟩
  rw [frame_drop_one, hlen, hsf]
  exact List.take_left' rfl

/-! ## The handshake success condition (claim C1)

The loop of lines 93–141 breaks at the first failing header, but the flags
set by headers processed before the break survive, and line 144 tests only
the flags.  The headers the loop actually validates are therefore exactly the
prefix before the first failing header. -/

/-- Whether one header makes the loop of lines 93–141 break with an error:
a `Connection` header with a value other than `"Upgrade"`, an `Upgrade`
header with a value other than `"websocket"`, or a `Sec-WebSocket-Accept`
header failing the hash comparison. -/
def headerAborts (encodedId : String) (kv : String × String) : Bool :=
  if kv.1 = "Connection" then decide (kv.2 ≠ "Upgrade")
  else if kv.1 = "Upgrade" then decide (kv.2 ≠ "websocket")
  else if kv.1 = "Sec-WebSocket-Accept" then !acceptCheck encodedId kv.2
  else false

/-- The headers the loop fully processes: the longest prefix with no
aborting header. -/
def okPrefix (encodedId : String) (headers : List (String × String)) :
    List (String × String) :=
  headers.takeWhile (fun kv => !headerAborts encodedId kv)

/-- The condition under which the code hands the connection over to the
application: status 101, and each of the three required headers occurs —
with its required value — before the first aborting header. -/
def HandshakeOK (encodedId : String) (resp : HTTPResponse) : Prop :=
  resp.status = 101 ∧
  ("Connection", "Upgrade") ∈ okPrefix encodedId resp.headers ∧
  ("Upgrade", "websocket") ∈ okPrefix encodedId resp.headers ∧
  ∃ v, ("Sec-WebSocket-Accept", v) ∈ okPrefix encodedId resp.headers ∧
    acceptCheck encodedId v = true

theorem mem_okPrefix_connection (encodedId : String)
    (hs : List (String × String)) (v : String)
    (h : ("Connection", v) ∈ okPrefix encodedId hs) : v = "Upgrade" := by
  have ha := List.mem_takeWhile_imp h
  simp [headerAborts] at ha
  exact ha

theorem mem_okPrefix_upgrade (encodedId : String)
    (hs : List (String × String)) (v : String)
    (h : ("Upgrade", v) ∈ okPrefix encodedId hs) : v = "websocket" := by
  have ha := List.mem_takeWhile_imp h
  simp [headerAborts] at ha
  exact ha

theorem mem_okPrefix_accept (encodedId : String)
    (hs : List (String × String)) (v : String)
    (h : ("Sec-WebSocket-Accept", v) ∈ okPrefix encodedId hs) :
    acceptCheck encodedId v = true := by
  have ha := List.mem_takeWhile_imp h
  simp [headerAborts] at ha
  exact ha

theorem okPrefix_cons_ok (encodedId : String) (kv : String × String)
    (hs : List (String × String)) (h : headerAborts encodedId kv = false) :
    okPrefix encodedId (kv :: hs) = kv :: okPrefix encodedId hs := by
  simp [okPrefix, List.takeWhile_cons, h]

theorem okPrefix_cons_abort (encodedId : String) (kv : String × String)
    (hs : List (String × String)) (h : headerAborts encodedId kv = true) :
    okPrefix encodedId (kv :: hs) = [] := by
  simp [okPrefix, List.takeWhile_cons, h]

theorem scanHeaders_cons_conn_ok (encodedId : String)
    (rest : List (String × String)) (st : ScanState) :
    scanHeaders encodedId (("Connection", "Upgrade") :: rest) st =
      scanHeaders encodedId rest { st with connection := true } := by
  simp [scanHeaders]

theorem scanHeaders_cons_conn_bad (encodedId v : String)
    (rest : List (String × String)) (st : ScanState) (hv : v ≠ "Upgrade") :
    scanHeaders encodedId (("Connection", v) :: rest) st =
      { st with error := true,
                events := st.events ++ [WSEvent.wsError
                  "Invalid WebSocket handshaked response: 'Connection' header value must be 'Upgrade'"] } := by
  simp [scanHeaders, hv]

theorem scanHeaders_cons_upg_ok (encodedId : String)
    (rest : List (String × String)) (st : ScanState) :
    scanHeaders encodedId (("Upgrade", "websocket") :: rest) st =
      scanHeaders encodedId rest { st with upgrade := true } := by
  simp [scanHeaders]

theorem scanHeaders_cons_upg_bad (encodedId v : String)
    (rest : List (String × String)) (st : ScanState) (hv : v ≠ "websocket") :
    scanHeaders encodedId (("Upgrade", v) :: rest) st =
      { st with error := true,
                events := st.events ++ [WSEvent.wsError
                  "Invalid WebSocket handshaked response: 'Upgrade' header value must be 'websocket'"] } := by
  simp [scanHeaders, hv]

theorem scanHeaders_cons_acc_ok (encodedId v : String)
    (rest : List (String × String)) (st : ScanState)
    (hv : acceptCheck encodedId v = true) :
    scanHeaders encodedId (("Sec-WebSocket-Accept", v) :: rest) st =
      scanHeaders encodedId rest { st with accept := true } := by
  simp [scanHeaders, hv]

theorem scanHeaders_cons_acc_bad (encodedId v : String)
    (rest : List (String × String)) (st : ScanState)
    (hv : acceptCheck encodedId v = false) :
    scanHeaders encodedId (("Sec-WebSocket-Accept", v) :: rest) st =
      { st with error := true,
                events := st.events ++ [WSEvent.wsError
                  "Invalid WebSocket handshaked response: 'Sec-WebSocket-Accept' value validation failed"] } := by
  simp [scanHeaders, hv]

theorem scanHeaders_cons_other (encodedId k v : String)
    (rest : List (String × String)) (st : ScanState)
    (h1 : k ≠ "Connection") (h2 : k ≠ "Upgrade")
    (h3 : k ≠ "Sec-WebSocket-Accept") :
    scanHeaders encodedId ((k, v) :: rest) st = scanHeaders encodedId rest st := by
  simp [scanHeaders, h1, h2, h3]

/-- The loop's final flags, characterised by the headers present in the
no-abort prefix (for an arbitrary starting state, to allow induction). -/
theorem scanHeaders_flags (encodedId : String) (hs : List (String × String))
    (st : ScanState) :
    ((scanHeaders encodedId hs st).connection = true ↔
      (st.connection = true ∨ ∃ v, ("Connection", v) ∈ okPrefix encodedId hs)) ∧
    ((scanHeaders encodedId hs st).upgrade = true ↔
      (st.upgrade = true ∨ ∃ v, ("Upgrade", v) ∈ okPrefix encodedId hs)) ∧
    ((scanHeaders encodedId hs st).accept = true ↔
      (st.accept = true ∨ ∃ v, ("Sec-WebSocket-Accept", v) ∈ okPrefix encodedId hs)) := by
  induction hs generalizing st with
  | nil =>
    simp [scanHeaders, okPrefix]
  | cons kv rest ih =>
    obtain ⟨k, v⟩ := kv
    by_cases hk1 : k = "Connection"
    · subst hk1
      by_cases hv : v = "Upgrade"
      · subst hv
        rw [scanHeaders_cons_conn_ok,
          okPrefix_cons_ok _ _ _ (by simp [headerAborts])]
        refine ⟨?_, ?_, ?_⟩
        · simp [(ih _).1]
        · rw [(ih _).2.1]
          simp
        · rw [(ih _).2.2]
          simp
      · rw [scanHeaders_cons_conn_bad _ _ _ _ hv,
          okPrefix_cons_abort _ _ _ (by simp [headerAborts, hv])]
        simp
    · by_cases hk2 : k = "Upgrade"
      · subst hk2
        by_cases hv : v = "websocket"
        · subst hv
          rw [scanHeaders_cons_upg_ok,
            okPrefix_cons_ok _ _ _ (by simp [headerAborts])]
          refine ⟨?_, ?_, ?_⟩
          · rw [(ih _).1]
            simp
          · simp [(ih _).2.1]
          · rw [(ih _).2.2]
            simp
        · rw [scanHeaders_cons_upg_bad _ _ _ _ hv,
            okPrefix_cons_abort _ _ _ (by simp [headerAborts, hv])]
          simp
      · by_cases hk3 : k = "Sec-WebSocket-Accept"
        · subst hk3
          by_cases hacc : acceptCheck encodedId v = true
          · rw [scanHeaders_cons_acc_ok _ _ _ _ hacc,
              okPrefix_cons_ok _ _ _ (by simp [headerAborts, hacc])]
            refine ⟨?_, ?_, ?_⟩
            · rw [(ih _).1]
              simp
            · rw [(ih _).2.1]
              simp
            · simp [(ih _).2.2]
          · have hacc2 : acceptCheck encodedId v = false := by simpa using hacc
            rw [scanHeaders_cons_acc_bad _ _ _ _ hacc2,
              okPrefix_cons_abort _ _ _ (by simp [headerAborts, hacc2])]
            simp
        · rw [scanHeaders_cons_other _ _ _ _ _ hk1 hk2 hk3,
            okPrefix_cons_ok _ _ _ (by simp [headerAborts, hk1, hk2, hk3])]
          refine ⟨?_, ?_, ?_⟩
          · rw [(ih _).1]
            simp [Ne.symm hk1]
          · rw [(ih _).2.1]
            simp [Ne.symm hk2]
          · rw [(ih _).2.2]
            simp [Ne.symm hk3]

/-- The loop only ever appends `onError` calls: `onWSConnected` is never
among its events. -/
theorem scanHeaders_connected_not_mem (encodedId : String)
    (hs : List (String × String)) (st : ScanState) (r : HTTPResponse)
    (h : WSEvent.wsConnected r ∉ st.events) :
    WSEvent.wsConnected r ∉ (scanHeaders encodedId hs st).events := by
  induction hs generalizing st with
  | nil => exact h
  | cons kv rest ih =>
    obtain ⟨k, v⟩ := kv
    simp only [scanHeaders]
    split
    · split
      · simp [h]
      · exact ih _ h
    · split
      · split
        · simp [h]
        · exact ih _ h
      · split
        · split
          · simp [h]
          · exact ih _ h
        · exact ih _ h

/-- Claim C1, amended: while not handshaked, the handshake succeeds (the state
becomes handshaked and `onWSConnected` fires for that response) exactly when
the status is 101 and each required header — `Connection: Upgrade`,
`Upgrade: websocket`, and a `Sec-WebSocket-Accept` passing the hash check —
occurs before the first disqualifying header.  A disqualifying header aborts
the loop with an error, but when it appears after all three conditions were
already established the handshake still succeeds, so a single violation does
not always prevent `onWSConnected`. -/
theorem handshake_success_iff (s : WSClientState) (encodedId : String)
    (freshMask : MaskKey) (resp : HTTPResponse) (h : s.handshaked = false) :
    (((onReceivedResponseHeader s encodedId freshMask resp).1).handshaked = true ↔
      HandshakeOK encodedId resp) ∧
    (WSEvent.wsConnected resp ∈ (onReceivedResponseHeader s encodedId freshMask resp).2 ↔
      HandshakeOK encodedId resp) := by
  by_cases hst : resp.status = 101
  · obtain ⟨hC, hU, hA⟩ :=
      scanHeaders_flags encodedId resp.headers ⟨false, false, false, false, []⟩
    simp only [Bool.false_eq_true, false_or] at hC hU hA
    by_cases hall :
        (scanHeaders encodedId resp.headers ⟨false, false, false, false, []⟩).accept = true ∧
        (scanHeaders encodedId resp.headers ⟨false, false, false, false, []⟩).connection = true ∧
        (scanHeaders encodedId resp.headers ⟨false, false, false, false, []⟩).upgrade = true
    · obtain ⟨ha, hc, hu⟩ := hall
      have heq : onReceivedResponseHeader s encodedId freshMask resp =
          ({ s with handshaked := true, mask := freshMask },
            (scanHeaders encodedId resp.headers ⟨false, false, false, false, []⟩).events ++
              [WSEvent.wsConnected resp]) := by
        simp [onReceivedResponseHeader, h, hst, ha, hc, hu]
      have hok : HandshakeOK encodedId resp := by
        refine ⟨hst, ?_, ?_, ?_⟩
        · obtain ⟨v, hv⟩ := hC.mp hc
          have hveq := mem_okPrefix_connection _ _ _ hv
          rw [hveq] at hv
          exact hv
        · obtain ⟨v, hv⟩ := hU.mp hu
          have hveq := mem_okPrefix_upgrade _ _ _ hv
          rw [hveq] at hv
          exact hv
        · obtain ⟨v, hv⟩ := hA.mp ha
          exact ⟨v, hv, mem_okPrefix_accept _ _ _ hv⟩
      rw [heq]
      constructor
      · simp [hok]
      · simp [hok]
    · have hcond :
          (!(scanHeaders encodedId resp.headers ⟨false, false, false, false, []⟩).accept ||
           !(scanHeaders encodedId resp.headers ⟨false, false, false, false, []⟩).connection ||
           !(scanHeaders encodedId resp.headers ⟨false, false, false, false, []⟩).upgrade) = true := by
        cases ha2 : (scanHeaders encodedId resp.headers ⟨false, false, false, false, []⟩).accept with
        | false => simp
        | true =>
          cases hc2 : (scanHeaders encodedId resp.headers ⟨false, false, false, false, []⟩).connection with
          | false => simp
          | true =>
            cases hu2 : (scanHeaders encodedId resp.headers ⟨false, false, false, false, []⟩).upgrade with
            | false => simp
            | true => exact absurd ⟨ha2, hc2, hu2⟩ hall
      have heq : onReceivedResponseHeader s encodedId freshMask resp =
          (s, (scanHeaders encodedId resp.headers ⟨false, false, false, false, []⟩).events ++
            (if (scanHeaders encodedId resp.headers ⟨false, false, false, false, []⟩).error then []
             else [WSEvent.wsError "Invalid WebSocket response"]) ++
            [WSEvent.disconnectAsync]) := by
        simp [onReceivedResponseHeader, h, hst, hcond]
      have hnok : ¬ HandshakeOK encodedId resp := by
        rintro ⟨-, hcmem, humem, v, hamem, -⟩
        exact hall ⟨hA.mpr ⟨v, hamem⟩, hC.mpr ⟨"Upgrade", hcmem⟩, hU.mpr ⟨"websocket", humem⟩⟩
      have hE : WSEvent.wsConnected resp ∉
          (scanHeaders encodedId resp.headers ⟨false, false, false, false, []⟩).events :=
        scanHeaders_connected_not_mem _ _ _ _ (by simp)
      rw [heq]
      constructor
      · simp [h, hnok]
      · cases herr : (scanHeaders encodedId resp.headers ⟨false, false, false, false, []⟩).error <;>
          simp [herr, hE, hnok]
  · have heq : onReceivedResponseHeader s encodedId freshMask resp =
        (s, [WSEvent.wsError
              ("Invalid WebSocket response status: " ++ toString resp.status),
            WSEvent.disconnectAsync]) := by
      simp [onReceivedResponseHeader, h, hst]
    have hnok : ¬ HandshakeOK encodedId resp := fun hk => hst hk.1
    rw [heq]
    simp [h, hnok]

/-- Witness for C1 at a response passing all three checks with the RFC 6455
sample key. -/
theorem handshake_success_iff_witness :
    sIdle.handshaked = false ∧
    ((((onReceivedResponseHeader sIdle eidVec mkA respGood).1).handshaked = true ↔
      HandshakeOK eidVec respGood) ∧
    (WSEvent.wsConnected respGood ∈ (onReceivedResponseHeader sIdle eidVec mkA respGood).2 ↔
      HandshakeOK eidVec respGood)) :=
  ⟨rfl, handshake_success_iff sIdle eidVec mkA respGood rfl⟩

/-- A response whose headers pass all three checks and then repeat
`Connection` with the value `"close"`. -/
def respQuirk : HTTPResponse :=
  ⟨101, [("Connection", "Upgrade"), ("Upgrade", "websocket"),
         ("Sec-WebSocket-Accept", acceptVec), ("Connection", "close")]⟩

/-- Counterexample to C1 as stated: `respQuirk` contains a header violating
`Connection == "Upgrade"` (so the claim says `onWSConnected` can never fire
for it), yet the client both reports the `Connection` error and completes the
handshake, firing `onWSConnected`. -/
theorem handshake_violation_connects :
    (("Connection", "close") ∈ respQuirk.headers ∧ "close" ≠ "Upgrade") ∧
    ((onReceivedResponseHeader sIdle eidVec mkA respQuirk).1).handshaked = true ∧
    WSEvent.wsConnected respQuirk ∈
      (onReceivedResponseHeader sIdle eidVec mkA respQuirk).2 ∧
    WSEvent.wsError
        "Invalid WebSocket handshaked response: 'Connection' header value must be 'Upgrade'" ∈
      (onReceivedResponseHeader sIdle eidVec mkA respQuirk).2 := by
  decide

